import Mathlib

/-!
Verification of the rosdep data-source resolution/caching layer
(`src/rosdep2/sources_list.py`) and the jfrog source-install pipeline
(`src/rosdep2/platforms/jfrog.py`) against their natural-language
specification.

The Python code is shallowly embedded: every definition below mirrors one
Python function or method, statement by statement.  External collaborators
(the network, the `jf` CLI, `hashlib`, `yaml` parsing, the filesystem and
script execution) are passed in as explicit function parameters ("oracles"),
so each embedded operation is a pure, executable Lean function of its inputs
and those oracles.  Python string primitives (`str.split`, `str.strip`,
`os.path.dirname`, ...) are re-implemented on character lists so that every
definition evaluates inside `decide` / `rfl`.
-/

namespace Rosdep

/-! ## Python string primitives -/

/-- `str.split(c)` with an explicit one-character separator: no collapsing of
repeated separators, `"".split(c) = [""]`. -/
def splitCharAux (c : Char) : List Char → List Char → List String
  | [], acc => [String.mk acc.reverse]
  | x :: xs, acc =>
    if x = c then String.mk acc.reverse :: splitCharAux c xs []
    else splitCharAux c xs (x :: acc)

def pySplit (c : Char) (s : String) : List String :=
  splitCharAux c s.toList []

/-- Python `str` whitespace for `strip()`. -/
def isPySpace (c : Char) : Bool :=
  c = ' ' || c = '\t' || c = '\n' || c = '\x0d' || c = '\x0b' || c = '\x0c'

/-- `str.strip()`. -/
def pyStrip (s : String) : String :=
  String.mk (((s.toList.dropWhile isPySpace).reverse.dropWhile isPySpace).reverse)

/-- `str.startswith(p)`. -/
def pyStartsWith (p : String) (s : String) : Bool :=
  p.toList.isPrefixOf s.toList

/-- `str.endswith(p)`. -/
def pyEndsWith (p : String) (s : String) : Bool :=
  p.toList.isSuffixOf s.toList

/-- `sep.join(xs)`. -/
def pyJoin (sep : String) (xs : List String) : String :=
  String.mk (sep.toList.intercalate (xs.map String.toList))

/-- Truthiness of an optional Python string: `None` and `''` are falsy. -/
def truthyS : Option String → Bool
  | none => false
  | some s => !(s = "")

/-- `os.path.dirname` for POSIX paths (`posixpath.dirname`): everything up to
the last slash, with trailing slashes stripped unless the head is all
slashes. -/
def pyDirname (p : String) : String :=
  let cs := p.toList
  let idx := (cs.enum.filter (fun ci => ci.2 = '/')).map (·.1)
  match idx.getLast? with
  | none => ""
  | some i =>
    let head := cs.take (i + 1)
    if head ≠ [] ∧ ¬ (head.all (fun c => c = '/')) then
      String.mk ((head.reverse.dropWhile (fun c => c = '/')).reverse)
    else
      String.mk head

/-- Two-argument `os.path.join` for POSIX paths. -/
def pyPathJoin (a b : String) : String :=
  if pyStartsWith "/" b then b
  else if a = "" ∨ pyEndsWith "/" a then a ++ b
  else a ++ "/" ++ b

/-- `l[-n:]`: the last `n` elements (all of them when `l` is shorter). -/
def lastN (n : Nat) (l : List α) : List α :=
  l.drop (l.length - n)

/-! ## `sources_list.py`: data model

`DataSource(type_, url, tags, origin)` (`sources_list.py:83`).  The
constructor validation (type must be in `VALID_TYPES`, the URL must have
scheme, netloc and a non-root path — checked through `urlparse`, an external
library) is modelled by `DataSource.valid`, with the URL check abstracted to
the scheme/netloc/path witness produced by the parse. -/

def TYPE_YAML : String := "yaml"
def TYPE_GBPDISTRO : String := "gbpdistro"
def VALID_TYPES : List String := [TYPE_YAML, TYPE_GBPDISTRO]

structure DataSource where
  type_ : String
  url : String
  tags : List String
  origin : Option String
deriving DecidableEq, Repr

/-- `InvalidData(message, origin=None)` from `rosdep2.core`. -/
structure InvalidData where
  message : String
  origin : Option String
deriving DecidableEq, Repr

/-- `DownloadFailure(message)` from `rosdep2.core`. -/
structure DownloadFailure where
  message : String
deriving DecidableEq, Repr

/-- `rospkg.ResourceNotFound(name)`. -/
structure ResourceNotFound where
  name : String
deriving DecidableEq, Repr

/-- `CachedDataSource` (`sources_list.py:147`): a `DataSource` plus the
loaded rosdep mapping data (`None` when the cache entry file was absent).
The mapping-document type is abstract (`δ`): nothing in this layer inspects
it. -/
structure CachedDataSource (δ : Type) where
  source : DataSource
  rosdep_data : Option δ
deriving DecidableEq, Repr

def CachedDataSource.url (c : CachedDataSource δ) : String := c.source.url
def CachedDataSource.tags (c : CachedDataSource δ) : List String := c.source.tags

/-! ## `DataSourceMatcher` (`sources_list.py:195`) -/

structure DataSourceMatcher where
  tags : List String
deriving DecidableEq, Repr

/-- `DataSourceMatcher.matches` (`sources_list.py:200`):
`not any(set(rosdep_data_source.tags) - set(self.tags))` — the set
difference is the source tags that are not matcher tags; the result is
true iff it is empty. -/
def DataSourceMatcher.matches (m : DataSourceMatcher) (sourceTags : List String) : Bool :=
  !((sourceTags.filter (fun t => !(m.tags.contains t))) ≠ [])

/-! ## `parse_sources_data` (`sources_list.py:260`)

The `model` parameter is the constructor to load each parsed line into
(`DataSource` by default, or the cached-source loader); it raises
`ValueError` on invalid fields, modelled as `Except String`. -/

def parseSourceLine (model : String → String → List String → String → Except String α)
    (origin : String) (line : String) : Except InvalidData (Option α) :=
  let line := pyStrip line
  if line = "" ∨ pyStartsWith "#" line then .ok none
  else
    let splits := pySplit ' ' line
    if splits.length < 2 then .error ⟨"invalid line:\n" ++ line, some origin⟩
    else
      let type_ := splits.headD ""
      let url := (splits.drop 1).headD ""
      let tags := splits.drop 2
      match model type_ url tags origin with
      | .ok s => .ok (some s)
      | .error e => .error ⟨"line:\n\t" ++ line ++ "\n" ++ e, some origin⟩

def parseSourceLines (model : String → String → List String → String → Except String α)
    (origin : String) : List α → List String → Except InvalidData (List α)
  | acc, [] => .ok acc
  | acc, l :: ls =>
    match parseSourceLine model origin l with
    | .error e => .error e
    | .ok none => parseSourceLines model origin acc ls
    | .ok (some s) => parseSourceLines model origin (acc ++ [s]) ls

/-- `parse_sources_data(data, origin, model)`: split on newlines, skip blank
and comment lines, require at least `<type> <url>` on each remaining line. -/
def parse_sources_data (model : String → String → List String → String → Except String α)
    (data : String) (origin : String) : Except InvalidData (List α) :=
  parseSourceLines model origin [] (pySplit '\n' data)

/-! ## `SourcesListLoader` (`sources_list.py:435`) -/

structure SourcesListLoader (δ : Type) where
  sources : List (CachedDataSource δ)
deriving DecidableEq, Repr

def ALL_VIEW_KEY : String := "sources.list"

/-- `SourcesListLoader.get_loadable_views` (`sources_list.py:499`). -/
def SourcesListLoader.get_loadable_views (l : SourcesListLoader δ) : List String :=
  l.sources.map (·.url)

/-- `SourcesListLoader.get_view_dependencies` (`sources_list.py:502`): a view
name equal to one of the retained source URLs (and different from
`ALL_VIEW_KEY`) is a leaf; any other name depends on every retained
source. -/
def SourcesListLoader.get_view_dependencies (l : SourcesListLoader δ)
    (view_name : String) : List String :=
  if view_name ≠ ALL_VIEW_KEY ∧ (l.sources.filter (fun x => view_name = x.url)).any (fun _ => true) then
    []
  else
    l.sources.map (·.url)

/-- `SourcesListLoader.get_source` (`sources_list.py:513`): first retained
source whose URL equals `view_name`, else `rospkg.ResourceNotFound`. -/
def SourcesListLoader.get_source (l : SourcesListLoader δ)
    (view_name : String) : Except ResourceNotFound (CachedDataSource δ) :=
  match l.sources.filter (fun x => x.url = view_name) with
  | m :: _ => .ok m
  | [] => .error ⟨view_name⟩

/-- The effect `load_view` has on the external `RosdepDatabase`
(`rosdep_db.set_view_data(view_name, data, dependencies, origin)`), or
nothing when the view was already loaded. -/
structure SetViewData (δ : Type) where
  view_name : String
  data : Option δ
  dependencies : List String
  origin : String
deriving DecidableEq, Repr

/-- `SourcesListLoader.load_view` (`sources_list.py:478`).  The external
database is abstracted to its `is_loaded` predicate; the returned value
describes the one `set_view_data` call made (`none` for the early-return
no-op). -/
def SourcesListLoader.load_view (l : SourcesListLoader δ) (view_name : String)
    (is_loaded : String → Bool) : Except ResourceNotFound (Option (SetViewData δ)) :=
  if is_loaded view_name then .ok none
  else
    match l.get_source view_name with
    | .error e => .error e
    | .ok source =>
      .ok (some ⟨view_name, source.rosdep_data, l.get_view_dependencies view_name, view_name⟩)

/-! ## `update_sources_list` (`sources_list.py:338`)

The orchestrator loop.  Inputs: the already-parsed source list (the
`parse_sources_list` result), the per-type fetchers
(`download_rosdep_data` for `yaml`, `download_gbpdistro_as_rosdep_data`
for `gbpdistro`) as oracles returning either a mapping document or the
`DownloadFailure` they raise, the `hashlib.sha1` hex digest as an oracle
(`compute_filename_hash`), and the cache directory.  The success/error
callbacks are modelled by recording their invocations in order.  A source
whose type is neither `yaml` nor `gbpdistro` leaves `rosdep_data` unbound in
the Python loop, raising an uncaught `UnboundLocalError` that aborts the
whole call: modelled as the `.error .nameError` outcome. -/

/-- `write_cache_file(source_cache_d, filename_key, rosdep_data)`
(`sources_list.py:418`): the cache entry path it returns. -/
def write_cache_file (hashFn : String → String) (source_cache_d : String)
    (filename_key : String) : String :=
  pyPathJoin source_cache_d (hashFn filename_key)

inductive UpdateCrash
  | nameError (typeName : String)
deriving DecidableEq, Repr

structure UpdateResult (δ : Type) where
  /-- the `(source, cache_file_path)` pairs returned. -/
  retval : List (DataSource × String)
  /-- the cache entries written: `(path, data)` in write order. -/
  cacheWrites : List (String × δ)
  /-- `success_handler(source)` invocations in order. -/
  successCalls : List DataSource
  /-- `error_handler(source, e)` invocations in order. -/
  errorCalls : List (DataSource × DownloadFailure)
  /-- every source the loop attempted to fetch, in order. -/
  attempts : List DataSource
  /-- the strings written to the cache index file, in write order. -/
  indexWrites : List String
deriving DecidableEq, Repr

def indexHeader : String :=
  "#autogenerated by rosdep, do not edit. use 'rosdep update' instead\n"

/-- One `f.write("yaml %s %s\n" % (source.url, ' '.join(source.tags)))` of
the index loop — the type tag is always the literal `yaml`. -/
def indexLineFor (source : DataSource) : String :=
  "yaml " ++ source.url ++ " " ++ pyJoin " " source.tags ++ "\n"

def updateStep (fetchYaml fetchGbp : String → Except DownloadFailure δ)
    (hashFn : String → String) (sources_cache_dir : String)
    (acc : UpdateResult δ) (source : DataSource) : Except UpdateCrash (UpdateResult δ) :=
  let acc := { acc with attempts := acc.attempts ++ [source] }
  let fetched : Except UpdateCrash (Except DownloadFailure δ) :=
    if source.type_ = TYPE_YAML then .ok (fetchYaml source.url)
    else if source.type_ = TYPE_GBPDISTRO then .ok (fetchGbp source.url)
    else .error (.nameError source.type_)
  match fetched with
  | .error c => .error c
  | .ok (.ok rosdep_data) =>
    let path := write_cache_file hashFn sources_cache_dir source.url
    .ok { acc with
          retval := acc.retval ++ [(source, path)]
          cacheWrites := acc.cacheWrites ++ [(path, rosdep_data)]
          successCalls := acc.successCalls ++ [source] }
  | .ok (.error e) =>
    .ok { acc with errorCalls := acc.errorCalls ++ [(source, e)] }

def updateLoop (fetchYaml fetchGbp : String → Except DownloadFailure δ)
    (hashFn : String → String) (sources_cache_dir : String) :
    UpdateResult δ → List DataSource → Except UpdateCrash (UpdateResult δ)
  | acc, [] => .ok acc
  | acc, s :: ss =>
    match updateStep fetchYaml fetchGbp hashFn sources_cache_dir acc s with
    | .error c => .error c
    | .ok acc => updateLoop fetchYaml fetchGbp hashFn sources_cache_dir acc ss

def emptyUpdateResult : UpdateResult δ := ⟨[], [], [], [], [], []⟩

/-- `update_sources_list`: run the per-source fetch loop (failures isolated
per source), then rewrite the cache index from the full original source
list. -/
def update_sources_list (fetchYaml fetchGbp : String → Except DownloadFailure δ)
    (hashFn : String → String) (sources_cache_dir : String)
    (sources : List DataSource) : Except UpdateCrash (UpdateResult δ) :=
  match updateLoop fetchYaml fetchGbp hashFn sources_cache_dir emptyUpdateResult sources with
  | .error c => .error c
  | .ok acc =>
    .ok { acc with
          indexWrites := sources.foldl (fun w s => w ++ [indexLineFor s]) [indexHeader] }

/-- The fetch the update loop performs for a source of a valid type (the
`yaml` / `gbpdistro` dispatch of `sources_list.py:366`-`369`). -/
def fetchOf (fetchYaml fetchGbp : String → Except DownloadFailure δ)
    (s : DataSource) : Except DownloadFailure δ :=
  if s.type_ = TYPE_YAML then fetchYaml s.url else fetchGbp s.url

/-! ## `platforms/jfrog.py`: manifest resolver

The rdmanifest document is a YAML mapping; `JFrogInstall.from_manifest`
reads a fixed set of keys from it, so the parsed document is modelled as a
structure of those optional fields. -/

structure Manifest where
  uri : Option String
  alternate_uri : Option String
  md5sum : Option String
  install_script : Option String
  check_presence_script : Option String
  exec_path : Option String
  depends : Option (List String)
deriving DecidableEq, Repr

/-- The two exception classes of `jfrog.py` (`DownloadFailed`,
`InvalidRdmanifest`), both re-raised by `resolve` as `InvalidData`. -/
inductive RdFail
  | downloadFailed (msg : String)
  | invalidRdmanifest (msg : String)
deriving DecidableEq, Repr

def RdFail.msg : RdFail → String
  | .downloadFailed m => m
  | .invalidRdmanifest m => m

/-- `JFrogInstall` (`jfrog.py:130`), as populated by `from_manifest`. -/
structure JFrogInstall where
  manifest : Manifest
  manifest_url : String
  install_command : String
  check_presence_command : String
  exec_path : String
  tarball : String
  alternate_tarball : Option String
  tarball_md5sum : Option String
  dependencies : List String
deriving DecidableEq, Repr

/-- `JFrogInstall.from_manifest(manifest, manifest_url)` (`jfrog.py:140`):
`uri` is required (`InvalidRdmanifest` when absent), everything else
defaults. -/
def JFrogInstall.from_manifest (manifest : Manifest) (manifest_url : String) :
    Except RdFail JFrogInstall :=
  match manifest.uri with
  | none => .error (.invalidRdmanifest "uri required for source rosdeps")
  | some tarball =>
    .ok { manifest := manifest
          manifest_url := manifest_url
          install_command := manifest.install_script.getD ""
          check_presence_command := manifest.check_presence_script.getD ""
          exec_path := manifest.exec_path.getD "."
          tarball := tarball
          alternate_tarball := manifest.alternate_uri
          tarball_md5sum := manifest.md5sum
          dependencies := manifest.depends.getD [] }

/-- `load_rdmanifest(contents)` (`jfrog.py:92`): the external YAML parse,
wrapped into `InvalidRdmanifest` on a scanner error.  `parseYaml` is the
`yaml.safe_load` oracle. -/
def load_rdmanifest (parseYaml : String → Except String Manifest)
    (contents : String) : Except RdFail Manifest :=
  match parseYaml contents with
  | .ok m => .ok m
  | .error e => .error (.invalidRdmanifest ("Failed to parse yaml in " ++ contents ++ ":  Error: " ++ e))

/-- `download_rdmanifest(url, md5sum, alt_url)` (`jfrog.py:102`).
`fetchFn url md5` is the `fetch_file` oracle: `(contents, error)` with empty
contents signalling a failed download.  Besides the parse result it returns
the list of URLs `fetch_file` was invoked on. -/
def download_rdmanifest (fetchFn : String → Option String → String × String)
    (parseYaml : String → Except String Manifest)
    (url : String) (md5sum : Option String) (alt_url : Option String) :
    Except RdFail (Manifest × String) × List String :=
  let fetched := fetchFn url md5sum
  let contents := fetched.1
  let error := fetched.2
  if contents = "" ∧ truthyS alt_url then
    let alt := alt_url.getD ""
    let fetched2 := fetchFn alt md5sum
    let contents2 := fetched2.1
    let error2 := fetched2.2
    if contents2 = "" then
      (.error (.downloadFailed
        ("Failed to load a rdmanifest from either " ++ url ++ " or " ++ alt ++ ": " ++ error2)),
       [url, alt])
    else
      (match load_rdmanifest parseYaml contents2 with
       | .ok m => .ok (m, alt)
       | .error e => .error e,
       [url, alt])
  else if contents = "" then
    (.error (.downloadFailed ("Failed to load a rdmanifest from " ++ url ++ ": " ++ error)),
     [url])
  else
    (match load_rdmanifest parseYaml contents with
     | .ok m => .ok (m, url)
     | .error e => .error e,
     [url])

/-- The dependency arguments dictionary passed to
`JFrogInstaller.resolve` / `get_depends`: the keys it reads. -/
structure RosdepArgs where
  uri : Option String
  alternate_uri : Option String
  md5sum : Option String
  depends : Option (List String)
deriving DecidableEq, Repr

/-- The mutable state of one `JFrogInstaller` within one process: the
in-memory `_rdmanifest_cache` dictionary (modelled as an association list,
newest binding first) plus the log of every URL `fetch_file` was invoked on
(so "no download happened" is expressible as state equality). -/
structure ResolveState where
  rdmanifest_cache : List (String × List JFrogInstall)
  fetchLog : List String
deriving DecidableEq, Repr

def cacheLookup (cache : List (String × List JFrogInstall)) :
    Option String → Option (List JFrogInstall)
  | none => none
  | some u =>
    match cache with
    | [] => none
    | (k, v) :: rest => if k = u then some v else cacheLookup rest (some u)

/-- `JFrogInstaller.resolve(rosdep_args)` (`jfrog.py:180`): check the
in-memory cache under the primary URL, then under the mirror URL; otherwise
download the manifest (primary, then mirror), parse it, and cache the
resolution under the URL the download actually came from.  `DownloadFailed`
and `InvalidRdmanifest` surface as `InvalidData`. -/
def resolve (fetchFn : String → Option String → String × String)
    (parseYaml : String → Except String Manifest)
    (rosdep_args : RosdepArgs) (st : ResolveState) :
    Except InvalidData (List JFrogInstall) × ResolveState :=
  match rosdep_args.uri with
  | none => (.error ⟨"'uri' key required for source rosdeps", none⟩, st)
  | some url =>
    let alt_url := rosdep_args.alternate_uri
    match cacheLookup st.rdmanifest_cache (some url) with
    | some v => (.ok v, st)
    | none =>
      match cacheLookup st.rdmanifest_cache alt_url with
      | some v => (.ok v, st)
      | none =>
        let dl := download_rdmanifest fetchFn parseYaml url rosdep_args.md5sum alt_url
        let st := { st with fetchLog := st.fetchLog ++ dl.2 }
        match dl.1 with
        | .error e => (.error ⟨e.msg, none⟩, st)
        | .ok (manifest, download_url) =>
          match JFrogInstall.from_manifest manifest download_url with
          | .error e => (.error ⟨e.msg, none⟩, st)
          | .ok resolved =>
            (.ok [resolved],
             { st with rdmanifest_cache := (download_url, [resolved]) :: st.rdmanifest_cache })

/-- `JFrogInstaller.get_depends(rosdep_args)` (`jfrog.py:223`):
`deps = rosdep_args.get('depends', [])` aliases the caller's list when the
key is present, and `deps.extend(...)` then mutates that same list object.
The third component of the result is the arguments dictionary as the caller
sees it after the call. -/
def get_depends (fetchFn : String → Option String → String × String)
    (parseYaml : String → Except String Manifest)
    (rosdep_args : RosdepArgs) (st : ResolveState) :
    Except InvalidData (List String) × ResolveState × RosdepArgs :=
  match resolve fetchFn parseYaml rosdep_args st with
  | (.error e, st') => (.error e, st', rosdep_args)
  | (.ok rs, st') =>
    let deps := (rosdep_args.depends.getD []) ++ (rs.map (·.dependencies)).flatten
    let args' :=
      match rosdep_args.depends with
      | some _ => { rosdep_args with depends := some deps }
      | none => rosdep_args
    (.ok deps, st', args')

/-! ## `install_source` (`jfrog.py:259`)

The install pipeline.  Side effects go through oracles:

* `fetchTar url` — `jfrog_urlretrieve(url)[0]`: the local filename the `jf`
  CLI downloaded to, or `""` on failure;
* `fileHash path` — `get_file_hash(path)`: the md5 hex digest of the file
  at `path` (file-opening errors are abstracted away: the claims under
  verification only exercise it on fetched files);
* `extractOk filename dir` — whether `tarfile.open+extractall` succeeds
  (`false` models the raised tar/IO exception);
* `runScript command dir` — `create_tempfile_from_string_and_execute`: the
  boolean success of the script.

The observable effects are recorded as an event trace, in particular
`removedTree dir` for the `shutil.rmtree(tempdir)` of the `finally`
block. -/

inductive InstallEvent
  | fetched (url : String)
  | hashed (filename : String)
  | extracted (filename : String) (dir : String)
  | ranScript (dir : String)
  | removedTree (dir : String)
deriving DecidableEq, Repr

inductive InstallErr
  /-- `InstallFailed(failure=(installer_key, message))`. -/
  | installFailed (installer : String) (msg : String)
  /-- the exception propagating out of `tarfile.open`/`extractall`. -/
  | extractionError
  /-- `assert f[0] == filename` failing after the tarball fetch. -/
  | assertionError
  /-- `s[4]` on a URL with fewer than five `/`-separated parts. -/
  | indexError
deriving DecidableEq, Repr

def JFROG_INSTALLER : String := "jfrog"

/-- The body of the `try` block (`jfrog.py:289`-`305`): extract unless the
artifact is a `.dmg`, then run the install script in
`os.path.join(tempdir, exec_path)`. -/
def install_try_body (extractOk : String → String → Bool)
    (runScript : String → String → Bool) (resolved : JFrogInstall)
    (filename tempdir : String) : Except InstallErr Unit × List InstallEvent :=
  let afterExtract : List InstallEvent → Except InstallErr Unit × List InstallEvent :=
    fun evs =>
      let dir := pyPathJoin tempdir resolved.exec_path
      let evs := evs ++ [InstallEvent.ranScript dir]
      if runScript resolved.install_command dir then (.ok (), evs)
      else (.error (.installFailed JFROG_INSTALLER "installation script returned with error code"), evs)
  if ¬ pyEndsWith ".dmg" filename then
    if extractOk filename tempdir then
      afterExtract [InstallEvent.extracted filename tempdir]
    else (.error .extractionError, [])
  else afterExtract []

/-- The `try ... finally: shutil.rmtree(tempdir)` of `install_source`: the
cleanup runs on every exit of the `try` block, and the block's outcome
(value or exception) is preserved. -/
def install_try_cleanup (extractOk : String → String → Bool)
    (runScript : String → String → Bool) (resolved : JFrogInstall)
    (filename tempdir : String) : Except InstallErr Unit × List InstallEvent :=
  let body := install_try_body extractOk runScript resolved filename tempdir
  (body.1, body.2 ++ [InstallEvent.removedTree tempdir])

/-- `install_source(resolved)` (`jfrog.py:259`): derive the working path
from the tarball URL, fetch, optionally verify the md5 digest (with mirror
fallback on mismatch), then extract + execute + clean up. -/
def install_source (fetchTar : String → String) (fileHash : String → String)
    (extractOk : String → String → Bool) (runScript : String → String → Bool)
    (resolved : JFrogInstall) : Except InstallErr Unit × List InstallEvent :=
  let s := pySplit '/' resolved.tarball
  if s.length < 5 then (.error .indexError, [])
  else
    let filename := pyJoin "/" (lastN 4 s)
    let tempdir := pyDirname filename
    let f0 := fetchTar resolved.tarball
    let evs0 := [InstallEvent.fetched resolved.tarball]
    if f0 ≠ filename then (.error .assertionError, evs0)
    else if truthyS resolved.tarball_md5sum then
      let md5 := resolved.tarball_md5sum.getD ""
      let hash1 := fileHash filename
      let evs1 := evs0 ++ [InstallEvent.hashed filename]
      if md5 ≠ hash1 then
        if truthyS resolved.alternate_tarball then
          let alt := resolved.alternate_tarball.getD ""
          let filename2 := fetchTar alt
          let hash2 := fileHash filename2
          let evs2 := evs1 ++ [InstallEvent.fetched alt, InstallEvent.hashed filename2]
          if md5 ≠ hash2 then
            (.error (.installFailed JFROG_INSTALLER
              ("md5sum check on " ++ resolved.tarball ++ " and " ++ alt ++
               " failed.  Expected " ++ md5 ++ " got " ++ hash1 ++ " and " ++ hash2)),
             evs2)
          else
            let r := install_try_cleanup extractOk runScript resolved filename2 tempdir
            (r.1, evs2 ++ r.2)
        else
          (.error (.installFailed JFROG_INSTALLER
            ("md5sum check on " ++ resolved.tarball ++ " failed.  Expected " ++
             md5 ++ " got " ++ hash1 ++ " ")),
           evs1)
      else
        let r := install_try_cleanup extractOk runScript resolved filename tempdir
        (r.1, evs1 ++ r.2)
    else
      let r := install_try_cleanup extractOk runScript resolved filename tempdir
      (r.1, evs0 ++ r.2)

/-! ## Concrete fixtures used by witnesses and counterexamples -/

/-- A trivial `model` argument for `parse_sources_data` that records the
parsed fields. -/
def tripleModel : String → String → List String → String → Except String (String × String × List String) :=
  fun t u tg _ => .ok (t, u, tg)

def sampleCached : CachedDataSource Nat :=
  ⟨⟨TYPE_YAML, "http://example.com/a.yaml", [], none⟩, some 1⟩

def sampleLoader : SourcesListLoader Nat := ⟨[sampleCached]⟩

def wManifest : Manifest :=
  ⟨some "http://host/artifactory/repo/a/b/c/d", none, none, none, none, none, some ["dep1"]⟩

def wInst : JFrogInstall :=
  ⟨wManifest, "http://h/m", "", "", ".", "http://host/artifactory/repo/a/b/c/d", none, none, ["dep1"]⟩

def wFetch : String → Option String → String × String :=
  fun u _ => if u = "http://h/m" then ("mc", "") else ("", "err")

def wParse : String → Except String Manifest := fun _ => .ok wManifest

def wArgs : RosdepArgs := ⟨some "http://h/m", none, none, some ["d0"]⟩

def wSt : ResolveState := ⟨[("http://h/m", [wInst])], ["http://h/m"]⟩

def cFetch : String → String := fun _ => "a/b/c/d"
def cHash : String → String := fun _ => "deadbeef"
def cExtract : String → String → Bool := fun _ _ => true
def cRun : String → String → Bool := fun _ _ => true

/-- A resolved unit with a declared checksum that will not match and no
alternate URI. -/
def cexResolved : JFrogInstall :=
  ⟨⟨some "http://host/artifactory/repo/a/b/c/d", none, some "m5", none, none, none, none⟩,
   "http://h/m", "ic", "", ".", "http://host/artifactory/repo/a/b/c/d",
   none, some "m5", []⟩

/-- As `cexResolved` but with an alternate URI (which will also mismatch
under `cHash`). -/
def cexResolvedAlt : JFrogInstall :=
  ⟨⟨some "http://host/artifactory/repo/a/b/c/d", some "http://h2/alt", some "m5", none, none, none, none⟩,
   "http://h/m", "ic", "", ".", "http://host/artifactory/repo/a/b/c/d",
   some "http://h2/alt", some "m5", []⟩

/-- A resolved unit with no checksum declared. -/
def wResolvedNoMd5 : JFrogInstall :=
  ⟨⟨some "http://host/artifactory/repo/a/b/c/d", none, none, none, none, none, none⟩,
   "http://h/m", "ic", "", ".", "http://host/artifactory/repo/a/b/c/d",
   none, none, []⟩

def wSourceA : DataSource := ⟨TYPE_YAML, "http://example.com/a.yaml", [], some "f.list"⟩
def wSourceB : DataSource := ⟨TYPE_YAML, "http://example.com/b.yaml", ["ubuntu"], some "f.list"⟩

/-- A fetch oracle under which `wSourceA` fails and `wSourceB` succeeds. -/
def wFetchYaml : String → Except DownloadFailure Nat :=
  fun u => if u = "http://example.com/b.yaml" then .ok 7 else .error ⟨"timeout"⟩

def wFetchGbp : String → Except DownloadFailure Nat := fun _ => .error ⟨"unused"⟩

def wHash : String → String := fun u => "h" ++ u

/-! # Theorems -/

/-- C5: for every data source and matcher tag set,
`DataSourceMatcher.matches` returns true iff every tag of the source is in
the matcher's tag set; in particular an empty source tag list matches any
platform tag set, and the result is false whenever at least one source tag
is absent from the platform set. -/
theorem matches_iff_subset (m : DataSourceMatcher) (s : DataSource) :
    (m.matches s.tags = true ↔ ∀ t ∈ s.tags, t ∈ m.tags)
    ∧ (s.tags = [] → m.matches s.tags = true)
    ∧ ((∃ t ∈ s.tags, t ∉ m.tags) → m.matches s.tags = false) := by
  have key : (m.matches s.tags = true) ↔ ∀ t ∈ s.tags, t ∈ m.tags := by
    simp [DataSourceMatcher.matches, List.filter_eq_nil_iff]
  refine ⟨key, ?_, ?_⟩
  · intro h
    rw [key, h]
    simp
  · rintro ⟨t, ht, hnt⟩
    rcases h : m.matches s.tags with _ | _
    · rfl
    · exact absurd (key.mp h t ht) hnt

/-- C6: `get_view_dependencies` returns the empty list when the view name
equals the URL of one of the retained sources, and the list of all retained
source URLs for any other name, including the aggregate key
`'sources.list'`.  The hypothesis that no retained source URL equals the
aggregate key is guaranteed upstream by `DataSource` URL validation (a
valid source URL carries a scheme, which `'sources.list'` lacks). -/
theorem get_view_dependencies_spec {δ : Type} (l : SourcesListLoader δ) (name : String)
    (hno : ALL_VIEW_KEY ∉ l.sources.map (·.url)) :
    (name ∈ l.sources.map (·.url) → l.get_view_dependencies name = [])
    ∧ (name ∉ l.sources.map (·.url) →
        l.get_view_dependencies name = l.sources.map (·.url)) := by
  constructor
  · intro hmem
    have hne : name ≠ ALL_VIEW_KEY := by
      intro h; exact hno (h ▸ hmem)
    unfold SourcesListLoader.get_view_dependencies
    rw [if_pos]
    refine ⟨hne, ?_⟩
    simp only [List.any_eq_true, List.mem_filter]
    rcases List.mem_map.mp hmem with ⟨x, hx, hurl⟩
    exact ⟨x, ⟨hx, by simp [hurl]⟩, trivial⟩
  · intro hmem
    unfold SourcesListLoader.get_view_dependencies
    rw [if_neg]
    rintro ⟨-, hany⟩
    simp only [List.any_eq_true, List.mem_filter] at hany
    rcases hany with ⟨x, ⟨hx, heq⟩, -⟩
    exact hmem (List.mem_map.mpr ⟨x, hx, (of_decide_eq_true heq).symm⟩)

/-- C6 witness: the concrete one-source loader. -/
theorem get_view_dependencies_spec_witness :
    ("http://example.com/a.yaml" ∈ sampleLoader.sources.map (·.url) →
      sampleLoader.get_view_dependencies "http://example.com/a.yaml" = [])
    ∧ ("http://example.com/a.yaml" ∉ sampleLoader.sources.map (·.url) →
      sampleLoader.get_view_dependencies "http://example.com/a.yaml" =
        sampleLoader.sources.map (·.url)) :=
  get_view_dependencies_spec sampleLoader "http://example.com/a.yaml" (by decide)

/-- C10: calling `load_view` with the aggregate key `'sources.list'` on a
database that has not loaded it raises `ResourceNotFound`, because
`get_source` only matches concrete source URLs (no retained URL can equal
the aggregate key, see `get_view_dependencies_spec`). -/
theorem load_view_all_key_not_found {δ : Type} (l : SourcesListLoader δ)
    (is_loaded : String → Bool)
    (hnl : is_loaded ALL_VIEW_KEY = false)
    (hno : ALL_VIEW_KEY ∉ l.sources.map (·.url)) :
    l.load_view ALL_VIEW_KEY is_loaded = .error ⟨ALL_VIEW_KEY⟩ := by
  unfold SourcesListLoader.load_view
  rw [hnl]
  simp only [Bool.false_eq_true, if_false]
  have hfilter : l.sources.filter (fun x => x.url = ALL_VIEW_KEY) = [] := by
    rw [List.filter_eq_nil_iff]
    intro x hx
    simp only [decide_eq_true_eq]
    intro h
    exact hno (List.mem_map.mpr ⟨x, hx, h⟩)
  unfold SourcesListLoader.get_source
  rw [hfilter]

/-- C10 witness: the concrete one-source loader with an empty database. -/
theorem load_view_all_key_not_found_witness :
    sampleLoader.load_view ALL_VIEW_KEY (fun _ => false) = .error ⟨ALL_VIEW_KEY⟩ :=
  load_view_all_key_not_found sampleLoader (fun _ => false) rfl (by decide)

theorem parseSourceLines_acc (model : String → String → List String → String → Except String α)
    (origin : String) (ls : List String) :
    ∀ acc, parseSourceLines model origin acc ls =
      (parseSourceLines model origin [] ls).map (fun r => acc ++ r) := by
  induction ls with
  | nil => intro acc; simp [parseSourceLines, Except.map]
  | cons l ls ih =>
    intro acc
    simp only [parseSourceLines]
    cases h : parseSourceLine model origin l with
    | error e => rfl
    | ok o =>
      cases o with
      | none => exact ih acc
      | some s =>
        dsimp only
        rw [ih (acc ++ [s]), ih ([] ++ [s])]
        cases parseSourceLines model origin [] ls <;> simp [Except.map]

theorem parseSourceLines_append (model : String → String → List String → String → Except String α)
    (origin : String) (xs ys : List String) (acc : List α) :
    parseSourceLines model origin acc (xs ++ ys) =
      match parseSourceLines model origin acc xs with
      | .ok acc' => parseSourceLines model origin acc' ys
      | .error e => .error e := by
  induction xs generalizing acc with
  | nil => simp [parseSourceLines]
  | cons l xs ih =>
    simp only [List.cons_append, parseSourceLines]
    cases parseSourceLine model origin l with
    | error e => rfl
    | ok o => cases o with
      | none => exact ih acc
      | some s => exact ih (acc ++ [s])

/-- C7: any non-empty, non-`#` line of a sources-list document whose
space-delimited token list has fewer than two entries makes
`parse_sources_data` fail with an `InvalidData` error whose message names
the offending (stripped) line and whose origin is the origin file — provided
parsing reaches the line, i.e. the preceding lines parse. -/
theorem parse_sources_data_short_line {α : Type}
    (model : String → String → List String → String → Except String α)
    (origin data : String) (pre : List String) (line : String) (rest : List String)
    (ss : List α)
    (hsplit : pySplit '\n' data = pre ++ line :: rest)
    (hpre : parseSourceLines model origin [] pre = .ok ss)
    (hne : pyStrip line ≠ "")
    (hnc : pyStartsWith "#" (pyStrip line) = false)
    (hshort : (pySplit ' ' (pyStrip line)).length < 2) :
    parse_sources_data model data origin =
      .error ⟨"invalid line:\n" ++ pyStrip line, some origin⟩ := by
  unfold parse_sources_data
  rw [hsplit, parseSourceLines_append, hpre]
  have hline : parseSourceLine model origin line =
      .error ⟨"invalid line:\n" ++ pyStrip line, some origin⟩ := by
    unfold parseSourceLine
    rw [if_neg, if_pos hshort]
    rintro (h | h)
    · exact hne h
    · rw [hnc] at h; exact Bool.false_ne_true h
  simp only [parseSourceLines, hline]

/-- C7 witness: a three-line document whose last line is a single token. -/
theorem parse_sources_data_short_line_witness :
    parse_sources_data tripleModel "# comment\nyaml http://h/p ubuntu\nfoo" "f.list" =
      .error ⟨"invalid line:\nfoo", some "f.list"⟩ :=
  parse_sources_data_short_line tripleModel "f.list"
    "# comment\nyaml http://h/p ubuntu\nfoo"
    ["# comment", "yaml http://h/p ubuntu"] "foo" []
    [("yaml", "http://h/p", ["ubuntu"])]
    (by decide) rfl (by decide) (by decide) (by decide)

theorem updateStep_valid {δ : Type} (fY fG : String → Except DownloadFailure δ)
    (hashFn : String → String) (cd : String) (acc : UpdateResult δ) (s : DataSource)
    (hs : s.type_ = TYPE_YAML ∨ s.type_ = TYPE_GBPDISTRO) :
    updateStep fY fG hashFn cd acc s = .ok (match fetchOf fY fG s with
      | .ok d =>
        { acc with attempts := acc.attempts ++ [s]
                   retval := acc.retval ++ [(s, write_cache_file hashFn cd s.url)]
                   cacheWrites := acc.cacheWrites ++ [(write_cache_file hashFn cd s.url, d)]
                   successCalls := acc.successCalls ++ [s] }
      | .error e =>
        { acc with attempts := acc.attempts ++ [s]
                   errorCalls := acc.errorCalls ++ [(s, e)] }) := by
  unfold updateStep fetchOf
  rcases hs with h | h
  · rw [if_pos h, if_pos h]
    cases fY s.url <;> rfl
  · have hne : ¬ (s.type_ = TYPE_YAML) := by
      rw [h]; decide
    rw [if_neg hne, if_pos h, if_neg hne]
    cases fG s.url <;> rfl

theorem updateLoop_spec {δ : Type} (fY fG : String → Except DownloadFailure δ)
    (hashFn : String → String) (cd : String) (ss : List DataSource)
    (htypes : ∀ s ∈ ss, s.type_ = TYPE_YAML ∨ s.type_ = TYPE_GBPDISTRO) :
    ∀ acc, updateLoop fY fG hashFn cd acc ss = .ok
      { retval := acc.retval ++ ss.filterMap (fun s => match fetchOf fY fG s with
          | .ok _ => some (s, write_cache_file hashFn cd s.url) | .error _ => none)
        cacheWrites := acc.cacheWrites ++ ss.filterMap (fun s => match fetchOf fY fG s with
          | .ok d => some (write_cache_file hashFn cd s.url, d) | .error _ => none)
        successCalls := acc.successCalls ++ ss.filter (fun s => (fetchOf fY fG s).isOk)
        errorCalls := acc.errorCalls ++ ss.filterMap (fun s => match fetchOf fY fG s with
          | .error e => some (s, e) | .ok _ => none)
        attempts := acc.attempts ++ ss
        indexWrites := acc.indexWrites } := by
  induction ss with
  | nil => intro acc; simp [updateLoop]
  | cons s ss ih =>
    intro acc
    have hs := htypes s (List.mem_cons_self s ss)
    have htail := fun x hx => htypes x (List.mem_cons_of_mem s hx)
    simp only [updateLoop, updateStep_valid fY fG hashFn cd acc s hs]
    cases hf : fetchOf fY fG s with
    | ok d =>
      rw [ih htail]
      simp [hf, Except.isOk, Except.toBool, List.filterMap_cons, List.filter_cons]
    | error e =>
      rw [ih htail]
      simp [hf, Except.isOk, Except.toBool, List.filterMap_cons, List.filter_cons]

theorem foldl_append_map (f : α → β) (l : List α) :
    ∀ acc : List β, l.foldl (fun w s => w ++ [f s]) acc = acc ++ l.map f := by
  induction l with
  | nil => intro acc; simp
  | cons s ss ih => intro acc; simp [List.foldl_cons, ih]

/-- C2: during `update_sources_list`, every configured source of a valid
type is attempted in order; a source whose fetch raises `DownloadFailure`
has the error handler invoked with that source and the failure, and every
other source is still fetched, cached and reported to the success handler —
one source's failure never aborts the batch. -/
theorem update_sources_list_isolates_failures {δ : Type}
    (fY fG : String → Except DownloadFailure δ) (hashFn : String → String)
    (cd : String) (sources : List DataSource)
    (htypes : ∀ s ∈ sources, s.type_ = TYPE_YAML ∨ s.type_ = TYPE_GBPDISTRO) :
    ∃ r, update_sources_list fY fG hashFn cd sources = .ok r
      ∧ r.attempts = sources
      ∧ (∀ s ∈ sources, ∀ e, fetchOf fY fG s = .error e → (s, e) ∈ r.errorCalls)
      ∧ (∀ s ∈ sources, ∀ d, fetchOf fY fG s = .ok d →
          s ∈ r.successCalls ∧ (s, write_cache_file hashFn cd s.url) ∈ r.retval ∧
          (write_cache_file hashFn cd s.url, d) ∈ r.cacheWrites) := by
  unfold update_sources_list
  rw [updateLoop_spec fY fG hashFn cd sources htypes emptyUpdateResult]
  refine ⟨_, rfl, by simp [emptyUpdateResult], ?_, ?_⟩
  · intro s hsm e hfe
    simp only [emptyUpdateResult, List.nil_append]
    exact List.mem_filterMap.mpr ⟨s, hsm, by rw [hfe]⟩
  · intro s hsm d hfd
    refine ⟨?_, ?_, ?_⟩
    · simp only [emptyUpdateResult, List.nil_append]
      exact List.mem_filter.mpr ⟨hsm, by rw [hfd]; rfl⟩
    · simp only [emptyUpdateResult, List.nil_append]
      exact List.mem_filterMap.mpr ⟨s, hsm, by rw [hfd]⟩
    · simp only [emptyUpdateResult, List.nil_append]
      exact List.mem_filterMap.mpr ⟨s, hsm, by rw [hfd]⟩

/-- C2 witness: two sources, the first failing, the second succeeding. -/
theorem update_sources_list_isolates_failures_witness :
    ∃ r, update_sources_list wFetchYaml wFetchGbp wHash "cache" [wSourceA, wSourceB] = .ok r
      ∧ r.attempts = [wSourceA, wSourceB]
      ∧ (∀ s ∈ [wSourceA, wSourceB], ∀ e, fetchOf wFetchYaml wFetchGbp s = .error e →
          (s, e) ∈ r.errorCalls)
      ∧ (∀ s ∈ [wSourceA, wSourceB], ∀ d, fetchOf wFetchYaml wFetchGbp s = .ok d →
          s ∈ r.successCalls ∧ (s, write_cache_file wHash "cache" s.url) ∈ r.retval ∧
          (write_cache_file wHash "cache" s.url, d) ∈ r.cacheWrites) :=
  update_sources_list_isolates_failures wFetchYaml wFetchGbp wHash "cache"
    [wSourceA, wSourceB] (by decide)

/-- C3: after the fetch loop, the cache index is rewritten as the header
line followed by one `yaml <url> <tags>` line per source of the full
original parsed source list, in order — and the index content is the same
whatever the fetch outcomes were (failed sources included). -/
theorem update_sources_list_index_full {δ : Type}
    (fY fG : String → Except DownloadFailure δ) (hashFn : String → String)
    (cd : String) (sources : List DataSource)
    (htypes : ∀ s ∈ sources, s.type_ = TYPE_YAML ∨ s.type_ = TYPE_GBPDISTRO) :
    ∃ r, update_sources_list fY fG hashFn cd sources = .ok r
      ∧ r.indexWrites = indexHeader :: sources.map indexLineFor
      ∧ ∀ fY' fG' : String → Except DownloadFailure δ,
          ∃ r', update_sources_list fY' fG' hashFn cd sources = .ok r'
            ∧ r'.indexWrites = r.indexWrites := by
  unfold update_sources_list
  rw [updateLoop_spec fY fG hashFn cd sources htypes emptyUpdateResult]
  refine ⟨_, rfl, ?_, ?_⟩
  · simp [foldl_append_map]
  · intro fY' fG'
    rw [updateLoop_spec fY' fG' hashFn cd sources htypes emptyUpdateResult]
    exact ⟨_, rfl, rfl⟩

/-- C3 witness: the same two-source run; the index lists the failed source
too. -/
theorem update_sources_list_index_full_witness :
    ∃ r, update_sources_list wFetchYaml wFetchGbp wHash "cache" [wSourceA, wSourceB] = .ok r
      ∧ r.indexWrites = indexHeader :: [wSourceA, wSourceB].map indexLineFor
      ∧ ∀ fY' fG' : String → Except DownloadFailure Nat,
          ∃ r', update_sources_list fY' fG' wHash "cache" [wSourceA, wSourceB] = .ok r'
            ∧ r'.indexWrites = r.indexWrites :=
  update_sources_list_index_full wFetchYaml wFetchGbp wHash "cache"
    [wSourceA, wSourceB] (by decide)

theorem download_rdmanifest_url (fetchFn : String → Option String → String × String)
    (parseYaml : String → Except String Manifest) (url : String)
    (md5 alt : Option String) (m : Manifest) (durl : String) (log : List String)
    (h : download_rdmanifest fetchFn parseYaml url md5 alt = (.ok (m, durl), log)) :
    durl = url ∨ ∃ a, alt = some a ∧ durl = a := by
  unfold download_rdmanifest at h
  dsimp only at h
  split_ifs at h with h1 h2 h3
  · -- mirror attempted, mirror fetch failed: no ok result
    simp at h
  · -- mirror attempted and fetched: durl is the mirror
    cases hl : load_rdmanifest parseYaml (fetchFn (alt.getD "") md5).1 with
    | ok m' =>
      rw [hl] at h
      dsimp only at h
      right
      cases alt with
      | none => exact absurd h1.2 (by simp [truthyS])
      | some a =>
        refine ⟨a, rfl, ?_⟩
        have h4 := congrArg Prod.fst h
        dsimp only at h4
        have h5 := Except.ok.inj h4
        exact (congrArg Prod.snd h5).symm
    | error e => rw [hl] at h; simp at h
  · -- primary fetch failed and no usable mirror: no ok result
    simp at h
  · -- primary fetched: durl is the primary url
    cases hl : load_rdmanifest parseYaml (fetchFn url md5).1 with
    | ok m' =>
      rw [hl] at h
      dsimp only at h
      left
      have h4 := congrArg Prod.fst h
      dsimp only at h4
      have h5 := Except.ok.inj h4
      exact (congrArg Prod.snd h5).symm
    | error e => rw [hl] at h; simp at h

theorem resolve_cache_hit (fetchFn : String → Option String → String × String)
    (parseYaml : String → Except String Manifest) (args : RosdepArgs)
    (st : ResolveState) (u : String) (v : List JFrogInstall)
    (hu : args.uri = some u)
    (hhit : cacheLookup st.rdmanifest_cache (some u) = some v ∨
      (cacheLookup st.rdmanifest_cache (some u) = none ∧
       cacheLookup st.rdmanifest_cache args.alternate_uri = some v)) :
    resolve fetchFn parseYaml args st = (.ok v, st) := by
  unfold resolve
  rw [hu]
  dsimp only
  rcases hhit with h1 | ⟨h1, h2⟩
  · rw [h1]
  · rw [h1, h2]

theorem resolve_idem (fetchFn : String → Option String → String × String)
    (parseYaml : String → Except String Manifest) (args : RosdepArgs)
    (st st' : ResolveState) (v : List JFrogInstall)
    (h : resolve fetchFn parseYaml args st = (.ok v, st')) :
    resolve fetchFn parseYaml args st' = (.ok v, st') := by
  cases hu : args.uri with
  | none => unfold resolve at h; rw [hu] at h; simp at h
  | some url =>
    unfold resolve at h
    rw [hu] at h
    dsimp only at h
    cases h1 : cacheLookup st.rdmanifest_cache (some url) with
    | some w =>
      rw [h1] at h
      obtain ⟨hv, hst⟩ := Prod.mk.injEq .. ▸ h
      obtain hvw := Except.ok.injEq .. ▸ hv
      subst hst
      exact resolve_cache_hit fetchFn parseYaml args st url v hu (Or.inl (hvw ▸ h1))
    | none =>
      rw [h1] at h
      cases h2 : cacheLookup st.rdmanifest_cache args.alternate_uri with
      | some w =>
        rw [h2] at h
        obtain ⟨hv, hst⟩ := Prod.mk.injEq .. ▸ h
        obtain hvw := Except.ok.injEq .. ▸ hv
        subst hst
        exact resolve_cache_hit fetchFn parseYaml args st url v hu
          (Or.inr ⟨h1, hvw ▸ h2⟩)
      | none =>
        rw [h2] at h
        cases hd : (download_rdmanifest fetchFn parseYaml url args.md5sum args.alternate_uri).1 with
        | error e => rw [hd] at h; simp at h
        | ok md =>
          obtain ⟨m, durl⟩ := md
          rw [hd] at h
          dsimp only at h
          cases hfm : JFrogInstall.from_manifest m durl with
          | error e => rw [hfm] at h; simp at h
          | ok resolved =>
            rw [hfm] at h
            dsimp only at h
            obtain ⟨hv, hst⟩ := Prod.mk.injEq .. ▸ h
            obtain hvw := Except.ok.injEq .. ▸ hv
            have hdurl : durl = url ∨ ∃ a, args.alternate_uri = some a ∧ durl = a :=
              download_rdmanifest_url fetchFn parseYaml url args.md5sum
                args.alternate_uri m durl _ (Prod.ext hd rfl)
            have hcache : st'.rdmanifest_cache = (durl, [resolved]) :: st.rdmanifest_cache := by
              rw [← hst]
            refine resolve_cache_hit fetchFn parseYaml args st' url v hu ?_
            rcases hdurl with hdu | ⟨a, ha, hda⟩
            · left
              rw [hcache, hdu]
              simp [cacheLookup, hvw]
            · by_cases hau : a = url
              · left
                rw [hcache, hda, hau]
                simp [cacheLookup, hvw]
              · right
                constructor
                · rw [hcache, hda]
                  simp only [cacheLookup, if_neg hau]
                  exact h1
                · rw [hcache, hda, ha]
                  simp [cacheLookup, hvw]

/-- C8: `resolve` downloads a given manifest at most once per process: it
first checks the in-memory cache under the primary URL, then under the
mirror URL, returning the cached resolution untouched (no fetch, state
unchanged) if either key is present; and once a resolution has succeeded,
resolving the same arguments again returns the same result with no further
fetch (the state, including the fetch log, is unchanged). -/
theorem resolve_fetch_at_most_once (fetchFn : String → Option String → String × String)
    (parseYaml : String → Except String Manifest) (args : RosdepArgs)
    (st : ResolveState) :
    (∀ u v, args.uri = some u →
      (cacheLookup st.rdmanifest_cache (some u) = some v ∨
        (cacheLookup st.rdmanifest_cache (some u) = none ∧
         cacheLookup st.rdmanifest_cache args.alternate_uri = some v)) →
      resolve fetchFn parseYaml args st = (.ok v, st))
    ∧ (∀ v st', resolve fetchFn parseYaml args st = (.ok v, st') →
        resolve fetchFn parseYaml args st' = (.ok v, st')) :=
  ⟨fun u v hu hhit => resolve_cache_hit fetchFn parseYaml args st u v hu hhit,
   fun v st' h => resolve_idem fetchFn parseYaml args st st' v h⟩

/-- C8 witness: a primed cache returns its entry with the state unchanged,
and a fresh successful resolution is stable under repetition. -/
theorem resolve_fetch_at_most_once_witness :
    resolve wFetch wParse wArgs wSt = (.ok [wInst], wSt)
    ∧ resolve wFetch wParse wArgs ⟨[], []⟩ = (.ok [wInst], wSt)
    ∧ resolve wFetch wParse wArgs wSt = (.ok [wInst], wSt) :=
  ⟨(resolve_fetch_at_most_once wFetch wParse wArgs wSt).1 "http://h/m" [wInst]
      rfl (Or.inl (by decide)),
   rfl,
   (resolve_fetch_at_most_once wFetch wParse wArgs ⟨[], []⟩).2 [wInst] wSt rfl⟩

theorem resolve_depends_irrel (fetchFn : String → Option String → String × String)
    (parseYaml : String → Except String Manifest) (args : RosdepArgs)
    (st : ResolveState) (d : Option (List String)) :
    resolve fetchFn parseYaml { args with depends := d } st =
      resolve fetchFn parseYaml args st := by
  cases args
  rfl

/-- C9: `get_depends` mutates its caller's argument: when `rosdep_args`
carries a `depends` list, the manifest dependencies are appended in place to
that same list object (the caller's list becomes `l ++ D`), and a repeated
call accumulates the same entries again (`l ++ D ++ D`). -/
theorem get_depends_mutates_args (fetchFn : String → Option String → String × String)
    (parseYaml : String → Except String Manifest) (args : RosdepArgs)
    (st st' : ResolveState) (l : List String) (rs : List JFrogInstall)
    (hl : args.depends = some l)
    (hres : resolve fetchFn parseYaml args st = (.ok rs, st')) :
    get_depends fetchFn parseYaml args st =
      (.ok (l ++ (rs.map (·.dependencies)).flatten), st',
       { args with depends := some (l ++ (rs.map (·.dependencies)).flatten) })
    ∧ get_depends fetchFn parseYaml
        { args with depends := some (l ++ (rs.map (·.dependencies)).flatten) } st' =
      (.ok (l ++ (rs.map (·.dependencies)).flatten ++ (rs.map (·.dependencies)).flatten), st',
       { args with
         depends := some (l ++ (rs.map (·.dependencies)).flatten ++ (rs.map (·.dependencies)).flatten) }) := by
  obtain ⟨uriF, altF, md5F, depF⟩ := args
  simp only [RosdepArgs.depends] at hl
  subst hl
  constructor
  · unfold get_depends
    rw [hres]
    rfl
  · unfold get_depends
    have hres2 : resolve fetchFn parseYaml
        ⟨uriF, altF, md5F, some (l ++ (rs.map (·.dependencies)).flatten)⟩ st' = (.ok rs, st') := by
      rw [resolve_depends_irrel fetchFn parseYaml ⟨uriF, altF, md5F, some l⟩ st'
        (some (l ++ (rs.map (·.dependencies)).flatten))]
      exact resolve_idem fetchFn parseYaml _ st st' rs hres
    rw [hres2]
    rfl

/-- C9 witness: a concrete successful resolution extends the caller's
`depends` list from `[d0]` to `[d0, dep1]`, and again to
`[d0, dep1, dep1]`. -/
theorem get_depends_mutates_args_witness :
    get_depends wFetch wParse wArgs ⟨[], []⟩ =
      (.ok ["d0", "dep1"], wSt, { wArgs with depends := some ["d0", "dep1"] })
    ∧ get_depends wFetch wParse { wArgs with depends := some ["d0", "dep1"] } wSt =
      (.ok ["d0", "dep1", "dep1"], wSt,
       { wArgs with depends := some ["d0", "dep1", "dep1"] }) :=
  get_depends_mutates_args wFetch wParse wArgs ⟨[], []⟩ wSt ["d0"] [wInst] rfl rfl

theorem install_try_cleanup_removes (extractOk runScript : String → String → Bool)
    (resolved : JFrogInstall) (filename tempdir : String) :
    InstallEvent.removedTree tempdir ∈
      (install_try_cleanup extractOk runScript resolved filename tempdir).2 := by
  unfold install_try_cleanup
  exact List.mem_append_right _ (List.mem_singleton.mpr rfl)

theorem install_try_cleanup_no_hash (extractOk runScript : String → String → Bool)
    (resolved : JFrogInstall) (filename tempdir f : String) :
    InstallEvent.hashed f ∉
      (install_try_cleanup extractOk runScript resolved filename tempdir).2 := by
  unfold install_try_cleanup install_try_body
  dsimp only
  split_ifs <;> simp

theorem install_source_skip_verify (fetchTar fileHash : String → String)
    (extractOk runScript : String → String → Bool) (resolved : JFrogInstall)
    (filename tempdir : String)
    (hlen : ¬ (pySplit '/' resolved.tarball).length < 5)
    (hfile : filename = pyJoin "/" (lastN 4 (pySplit '/' resolved.tarball)))
    (htmp : tempdir = pyDirname filename)
    (hfetch : fetchTar resolved.tarball = filename)
    (hm : truthyS resolved.tarball_md5sum = false) :
    install_source fetchTar fileHash extractOk runScript resolved =
      ((install_try_cleanup extractOk runScript resolved filename tempdir).1,
       [InstallEvent.fetched resolved.tarball] ++
         (install_try_cleanup extractOk runScript resolved filename tempdir).2) := by
  subst htmp
  subst hfile
  unfold install_source
  rw [if_neg hlen]
  try dsimp only
  rw [if_neg (fun hne => hne hfetch)]
  try dsimp only
  rw [if_neg (fun h => Bool.false_ne_true (hm ▸ h))]

theorem install_source_verify_match (fetchTar fileHash : String → String)
    (extractOk runScript : String → String → Bool) (resolved : JFrogInstall)
    (filename tempdir : String)
    (hlen : ¬ (pySplit '/' resolved.tarball).length < 5)
    (hfile : filename = pyJoin "/" (lastN 4 (pySplit '/' resolved.tarball)))
    (htmp : tempdir = pyDirname filename)
    (hfetch : fetchTar resolved.tarball = filename)
    (hm : truthyS resolved.tarball_md5sum = true)
    (hmatch : resolved.tarball_md5sum.getD "" = fileHash filename) :
    install_source fetchTar fileHash extractOk runScript resolved =
      ((install_try_cleanup extractOk runScript resolved filename tempdir).1,
       [InstallEvent.fetched resolved.tarball, InstallEvent.hashed filename] ++
         (install_try_cleanup extractOk runScript resolved filename tempdir).2) := by
  subst htmp
  subst hfile
  unfold install_source
  rw [if_neg hlen]
  try dsimp only
  rw [if_neg (fun hne => hne hfetch)]
  try dsimp only
  rw [if_pos hm]
  try dsimp only
  rw [if_neg (fun hne => hne hmatch)]
  simp

theorem install_source_alt_match (fetchTar fileHash : String → String)
    (extractOk runScript : String → String → Bool) (resolved : JFrogInstall)
    (filename tempdir : String)
    (hlen : ¬ (pySplit '/' resolved.tarball).length < 5)
    (hfile : filename = pyJoin "/" (lastN 4 (pySplit '/' resolved.tarball)))
    (htmp : tempdir = pyDirname filename)
    (hfetch : fetchTar resolved.tarball = filename)
    (hm : truthyS resolved.tarball_md5sum = true)
    (hmis : resolved.tarball_md5sum.getD "" ≠ fileHash filename)
    (halt : truthyS resolved.alternate_tarball = true)
    (hmatch2 : resolved.tarball_md5sum.getD "" =
      fileHash (fetchTar (resolved.alternate_tarball.getD ""))) :
    install_source fetchTar fileHash extractOk runScript resolved =
      ((install_try_cleanup extractOk runScript resolved
          (fetchTar (resolved.alternate_tarball.getD "")) tempdir).1,
       [InstallEvent.fetched resolved.tarball, InstallEvent.hashed filename,
        InstallEvent.fetched (resolved.alternate_tarball.getD ""),
        InstallEvent.hashed (fetchTar (resolved.alternate_tarball.getD ""))] ++
         (install_try_cleanup extractOk runScript resolved
           (fetchTar (resolved.alternate_tarball.getD "")) tempdir).2) := by
  subst htmp
  subst hfile
  unfold install_source
  rw [if_neg hlen]
  try dsimp only
  rw [if_neg (fun hne => hne hfetch)]
  try dsimp only
  rw [if_pos hm]
  try dsimp only
  rw [if_pos hmis]
  try dsimp only
  rw [if_pos halt]
  try dsimp only
  rw [if_neg (fun hne => hne hmatch2)]
  simp

theorem install_source_alt_mismatch (fetchTar fileHash : String → String)
    (extractOk runScript : String → String → Bool) (resolved : JFrogInstall)
    (filename tempdir : String)
    (hlen : ¬ (pySplit '/' resolved.tarball).length < 5)
    (hfile : filename = pyJoin "/" (lastN 4 (pySplit '/' resolved.tarball)))
    (htmp : tempdir = pyDirname filename)
    (hfetch : fetchTar resolved.tarball = filename)
    (hm : truthyS resolved.tarball_md5sum = true)
    (hmis : resolved.tarball_md5sum.getD "" ≠ fileHash filename)
    (halt : truthyS resolved.alternate_tarball = true)
    (hmis2 : resolved.tarball_md5sum.getD "" ≠
      fileHash (fetchTar (resolved.alternate_tarball.getD ""))) :
    install_source fetchTar fileHash extractOk runScript resolved =
      (.error (.installFailed JFROG_INSTALLER
        ("md5sum check on " ++ resolved.tarball ++ " and " ++
         resolved.alternate_tarball.getD "" ++ " failed.  Expected " ++
         resolved.tarball_md5sum.getD "" ++ " got " ++ fileHash filename ++ " and " ++
         fileHash (fetchTar (resolved.alternate_tarball.getD "")))),
       [InstallEvent.fetched resolved.tarball, InstallEvent.hashed filename,
        InstallEvent.fetched (resolved.alternate_tarball.getD ""),
        InstallEvent.hashed (fetchTar (resolved.alternate_tarball.getD ""))]) := by
  subst htmp
  subst hfile
  unfold install_source
  rw [if_neg hlen]
  try dsimp only
  rw [if_neg (fun hne => hne hfetch)]
  try dsimp only
  rw [if_pos hm]
  try dsimp only
  rw [if_pos hmis]
  try dsimp only
  rw [if_pos halt]
  try dsimp only
  rw [if_pos hmis2]
  simp

theorem install_source_no_alt_mismatch (fetchTar fileHash : String → String)
    (extractOk runScript : String → String → Bool) (resolved : JFrogInstall)
    (filename tempdir : String)
    (hlen : ¬ (pySplit '/' resolved.tarball).length < 5)
    (hfile : filename = pyJoin "/" (lastN 4 (pySplit '/' resolved.tarball)))
    (htmp : tempdir = pyDirname filename)
    (hfetch : fetchTar resolved.tarball = filename)
    (hm : truthyS resolved.tarball_md5sum = true)
    (hmis : resolved.tarball_md5sum.getD "" ≠ fileHash filename)
    (halt : truthyS resolved.alternate_tarball = false) :
    install_source fetchTar fileHash extractOk runScript resolved =
      (.error (.installFailed JFROG_INSTALLER
        ("md5sum check on " ++ resolved.tarball ++ " failed.  Expected " ++
         resolved.tarball_md5sum.getD "" ++ " got " ++ fileHash filename ++ " ")),
       [InstallEvent.fetched resolved.tarball, InstallEvent.hashed filename]) := by
  subst htmp
  subst hfile
  unfold install_source
  rw [if_neg hlen]
  try dsimp only
  rw [if_neg (fun hne => hne hfetch)]
  try dsimp only
  rw [if_pos hm]
  try dsimp only
  rw [if_pos hmis]
  try dsimp only
  rw [if_neg (fun h => Bool.false_ne_true (halt ▸ h))]
  simp

/-- C1 counterexample: a resolved unit whose declared checksum mismatches
the fetched tarball (and which declares no alternate) makes
`install_source` raise `InstallFailed` from the verification step, which
precedes the `try/finally` cleanup block: the trace shows the tarball was
fetched into the working path yet no `shutil.rmtree` ever ran, so the
working directory is not removed on this exit path. -/
theorem install_source_cleanup_counterexample :
    (install_source cFetch cHash cExtract cRun cexResolved).1 =
      .error (.installFailed JFROG_INSTALLER
        "md5sum check on http://host/artifactory/repo/a/b/c/d failed.  Expected m5 got deadbeef ")
    ∧ (install_source cFetch cHash cExtract cRun cexResolved).2 =
      [InstallEvent.fetched "http://host/artifactory/repo/a/b/c/d",
       InstallEvent.hashed "a/b/c/d"]
    ∧ InstallEvent.removedTree "a/b/c" ∉
        (install_source cFetch cHash cExtract cRun cexResolved).2 := by
  refine ⟨rfl, by decide, by decide⟩

/-- C1 (amended): the working directory is removed whenever execution
reaches the extraction/execution phase — on success, extraction failure and
install-script failure alike — i.e. whenever checksum verification is
skipped, passes on the primary, or passes on the alternate; but on
checksum-verification failure (mismatch with no alternate declared, or
mismatch on both tarballs) `install_source` raises before the scoped
cleanup block and the working directory is not removed. -/
theorem install_source_cleanup_amended
    (fetchTar fileHash : String → String) (extractOk runScript : String → String → Bool)
    (resolved : JFrogInstall) (filename tempdir : String)
    (hlen : ¬ (pySplit '/' resolved.tarball).length < 5)
    (hfile : filename = pyJoin "/" (lastN 4 (pySplit '/' resolved.tarball)))
    (htmp : tempdir = pyDirname filename)
    (hfetch : fetchTar resolved.tarball = filename) :
    ((truthyS resolved.tarball_md5sum = false
      ∨ resolved.tarball_md5sum.getD "" = fileHash filename
      ∨ (truthyS resolved.alternate_tarball = true ∧
         resolved.tarball_md5sum.getD "" =
           fileHash (fetchTar (resolved.alternate_tarball.getD ""))))
     → InstallEvent.removedTree tempdir ∈
        (install_source fetchTar fileHash extractOk runScript resolved).2)
    ∧ ((truthyS resolved.tarball_md5sum = true ∧
        resolved.tarball_md5sum.getD "" ≠ fileHash filename ∧
        (truthyS resolved.alternate_tarball = false ∨
         resolved.tarball_md5sum.getD "" ≠
           fileHash (fetchTar (resolved.alternate_tarball.getD ""))))
     → ∀ d, InstallEvent.removedTree d ∉
        (install_source fetchTar fileHash extractOk runScript resolved).2) := by
  constructor
  · intro hP
    cases hmB : truthyS resolved.tarball_md5sum with
    | false =>
      rw [install_source_skip_verify fetchTar fileHash extractOk runScript resolved
        filename tempdir hlen hfile htmp hfetch hmB]
      exact List.mem_append_right _
        (install_try_cleanup_removes extractOk runScript resolved filename tempdir)
    | true =>
      by_cases hme : resolved.tarball_md5sum.getD "" = fileHash filename
      · rw [install_source_verify_match fetchTar fileHash extractOk runScript resolved
          filename tempdir hlen hfile htmp hfetch hmB hme]
        exact List.mem_append_right _
          (install_try_cleanup_removes extractOk runScript resolved filename tempdir)
      · rcases hP with h | h | ⟨halt, h2⟩
        · rw [hmB] at h; exact absurd h (by simp)
        · exact absurd h hme
        · rw [install_source_alt_match fetchTar fileHash extractOk runScript resolved
            filename tempdir hlen hfile htmp hfetch hmB hme halt h2]
          exact List.mem_append_right _
            (install_try_cleanup_removes extractOk runScript resolved
              (fetchTar (resolved.alternate_tarball.getD "")) tempdir)
  · rintro ⟨hm, hmis, hrest⟩ d
    cases haltB : truthyS resolved.alternate_tarball with
    | false =>
      rw [install_source_no_alt_mismatch fetchTar fileHash extractOk runScript resolved
        filename tempdir hlen hfile htmp hfetch hm hmis haltB]
      simp
    | true =>
      rcases hrest with h | h
      · rw [haltB] at h; exact absurd h (by simp)
      · rw [install_source_alt_mismatch fetchTar fileHash extractOk runScript resolved
          filename tempdir hlen hfile htmp hfetch hm hmis haltB h]
        simp

/-- C1 witness: with no checksum declared, the working directory is removed. -/
theorem install_source_cleanup_amended_witness :
    InstallEvent.removedTree "a/b/c" ∈
      (install_source cFetch cHash cExtract cRun wResolvedNoMd5).2 :=
  (install_source_cleanup_amended cFetch cHash cExtract cRun wResolvedNoMd5
    "a/b/c/d" "a/b/c" (by decide) (by decide) (by decide) rfl).1 (Or.inl rfl)

/-- C4: checksum verification with mirror fallback.  When a checksum is
declared and the primary digest mismatches: with an alternate URI declared,
the alternate is fetched and its digest recomputed, and installation
proceeds into the extract/execute/cleanup phase on the alternate file if it
matches; if the alternate also mismatches, installation fails with an error
reporting both observed digests against the expected one.  With no checksum
declared, verification is skipped entirely (no digest is ever computed) and
is not an error. -/
theorem install_source_checksum_fallback
    (fetchTar fileHash : String → String) (extractOk runScript : String → String → Bool)
    (resolved : JFrogInstall) (filename tempdir : String)
    (hlen : ¬ (pySplit '/' resolved.tarball).length < 5)
    (hfile : filename = pyJoin "/" (lastN 4 (pySplit '/' resolved.tarball)))
    (htmp : tempdir = pyDirname filename)
    (hfetch : fetchTar resolved.tarball = filename) :
    (∀ md5 alt, resolved.tarball_md5sum = some md5 → md5 ≠ "" →
      resolved.alternate_tarball = some alt → alt ≠ "" →
      md5 ≠ fileHash filename → md5 = fileHash (fetchTar alt) →
      install_source fetchTar fileHash extractOk runScript resolved =
        ((install_try_cleanup extractOk runScript resolved (fetchTar alt) tempdir).1,
         [InstallEvent.fetched resolved.tarball, InstallEvent.hashed filename,
          InstallEvent.fetched alt, InstallEvent.hashed (fetchTar alt)] ++
           (install_try_cleanup extractOk runScript resolved (fetchTar alt) tempdir).2))
    ∧ (∀ md5 alt, resolved.tarball_md5sum = some md5 → md5 ≠ "" →
      resolved.alternate_tarball = some alt → alt ≠ "" →
      md5 ≠ fileHash filename → md5 ≠ fileHash (fetchTar alt) →
      install_source fetchTar fileHash extractOk runScript resolved =
        (.error (.installFailed JFROG_INSTALLER
          ("md5sum check on " ++ resolved.tarball ++ " and " ++ alt ++
           " failed.  Expected " ++ md5 ++ " got " ++ fileHash filename ++
           " and " ++ fileHash (fetchTar alt))),
         [InstallEvent.fetched resolved.tarball, InstallEvent.hashed filename,
          InstallEvent.fetched alt, InstallEvent.hashed (fetchTar alt)]))
    ∧ (resolved.tarball_md5sum = none →
        install_source fetchTar fileHash extractOk runScript resolved =
          ((install_try_cleanup extractOk runScript resolved filename tempdir).1,
           [InstallEvent.fetched resolved.tarball] ++
             (install_try_cleanup extractOk runScript resolved filename tempdir).2)
        ∧ ∀ f, InstallEvent.hashed f ∉
            (install_source fetchTar fileHash extractOk runScript resolved).2) := by
  refine ⟨?_, ?_, ?_⟩
  · intro md5 alt hmd5 hmne halt haltne hmis hmatch2
    have hm : truthyS resolved.tarball_md5sum = true := by simp [truthyS, hmd5, hmne]
    have hgd : resolved.tarball_md5sum.getD "" = md5 := by simp [hmd5]
    have haltT : truthyS resolved.alternate_tarball = true := by simp [truthyS, halt, haltne]
    have hgda : resolved.alternate_tarball.getD "" = alt := by simp [halt]
    have h1 : resolved.tarball_md5sum.getD "" ≠ fileHash filename := by
      rw [hgd]; exact hmis
    have h2 : resolved.tarball_md5sum.getD "" =
        fileHash (fetchTar (resolved.alternate_tarball.getD "")) := by
      rw [hgd, hgda]; exact hmatch2
    rw [install_source_alt_match fetchTar fileHash extractOk runScript resolved
      filename tempdir hlen hfile htmp hfetch hm h1 haltT h2, hgda]
  · intro md5 alt hmd5 hmne halt haltne hmis hmis2
    have hm : truthyS resolved.tarball_md5sum = true := by simp [truthyS, hmd5, hmne]
    have hgd : resolved.tarball_md5sum.getD "" = md5 := by simp [hmd5]
    have haltT : truthyS resolved.alternate_tarball = true := by simp [truthyS, halt, haltne]
    have hgda : resolved.alternate_tarball.getD "" = alt := by simp [halt]
    have h1 : resolved.tarball_md5sum.getD "" ≠ fileHash filename := by
      rw [hgd]; exact hmis
    have h2 : resolved.tarball_md5sum.getD "" ≠
        fileHash (fetchTar (resolved.alternate_tarball.getD "")) := by
      rw [hgd, hgda]; exact hmis2
    rw [install_source_alt_mismatch fetchTar fileHash extractOk runScript resolved
      filename tempdir hlen hfile htmp hfetch hm h1 haltT h2, hgda, hgd]
  · intro hnone
    have hm : truthyS resolved.tarball_md5sum = false := by simp [truthyS, hnone]
    have heq := install_source_skip_verify fetchTar fileHash extractOk runScript resolved
      filename tempdir hlen hfile htmp hfetch hm
    refine ⟨heq, ?_⟩
    intro f
    rw [heq]
    intro hmem
    rcases List.mem_append.mp hmem with h | h
    · simp at h
    · exact install_try_cleanup_no_hash extractOk runScript resolved filename tempdir f h

/-- C4 witness: checksum declared, both the primary and the alternate
mismatch: the failure reports both observed digests and the expected one. -/
theorem install_source_checksum_fallback_witness :
    install_source cFetch cHash cExtract cRun cexResolvedAlt =
      (.error (.installFailed JFROG_INSTALLER
        ("md5sum check on http://host/artifactory/repo/a/b/c/d and http://h2/alt" ++
         " failed.  Expected m5 got deadbeef and deadbeef")),
       [InstallEvent.fetched "http://host/artifactory/repo/a/b/c/d",
        InstallEvent.hashed "a/b/c/d",
        InstallEvent.fetched "http://h2/alt",
        InstallEvent.hashed "a/b/c/d"]) :=
  (install_source_checksum_fallback cFetch cHash cExtract cRun cexResolvedAlt
    "a/b/c/d" "a/b/c" (by decide) (by decide) (by decide) rfl).2.1
    "m5" "http://h2/alt" rfl (by decide) rfl (by decide) (by decide) (by decide)

end Rosdep
